import Mathlib

/-
Verification of the NOTAM decoding core of avwx-engine.

Embedding conventions: Python strings are embedded as `List Char`; Python
`None`-or-value results are `Option`; raising constructors are `Except`;
wall-clock time is an explicit `Nat` parameter; the `float` coordinate values
produced by reading the fixed-width `DDMM`/`DDDMM` digits as the decimal
`DD.MM` are embedded exactly as integer hundredths (`Int`), with `Coord.latQ`
and `Coord.lonQ` giving the rational value.

The NOTAM module itself (`avwx/current/notam.py`) is not part of the provided
sources; only its test suite (`tests/current/test_notam.py`) and the service
base class (`avwx/service/base.py`) are. Decoding functions below are
therefore modelled from the specification, with the committed test vectors
pinning concrete behaviour; `Service` is translated directly from
`avwx/service/base.py`.
-/

namespace AvwxNotam

/-- Whitespace test used by the Python `str.strip` embedding. -/
def isSpaceChar (c : Char) : Bool :=
  if c = ' ' ∨ c = '\t' ∨ c = '\n' ∨ c = '\r' then true else false

/-- Left strip, as in Python `str.lstrip`. -/
def lstripChars (cs : List Char) : List Char := cs.dropWhile isSpaceChar

/-- Right strip, as in Python `str.rstrip`. -/
def rstripChars (cs : List Char) : List Char :=
  (cs.reverse.dropWhile isSpaceChar).reverse

/-- Both-ends strip, as in Python `str.strip`. -/
def trimChars (cs : List Char) : List Char := lstripChars (rstripChars cs)

/-- ASCII decimal digit test. -/
def isDigitChar (c : Char) : Bool :=
  if 48 ≤ c.toNat ∧ c.toNat ≤ 57 then true else false

/-- Numeric value of an ASCII digit character. -/
def digitToNat (c : Char) : Nat := c.toNat - 48

/-- ASCII uppercase letter test. -/
def isUpperChar (c : Char) : Bool :=
  if 65 ≤ c.toNat ∧ c.toNat ≤ 90 then true else false

/-- ASCII lowercase letter test. -/
def isLowerChar (c : Char) : Bool :=
  if 97 ≤ c.toNat ∧ c.toNat ≤ 122 then true else false

/-- ASCII letter test. -/
def isAlphaChar (c : Char) : Bool := isUpperChar c || isLowerChar c

/-- Word character, as in the regex class used for tag boundaries. -/
def isWordChar (c : Char) : Bool :=
  isAlphaChar c || isDigitChar c || (if c = '_' then true else false)

/-- Decimal value of a digit string, most significant digit first. -/
def natFromDigits (cs : List Char) : Nat :=
  cs.foldl (fun a c => 10 * a + digitToNat c) 0

/-- Accumulator loop for `charSplit`. -/
def charSplitGo (sep : Char) (cur : List Char) : List Char → List (List Char)
  | [] => [cur.reverse]
  | c :: rest =>
    if c = sep then cur.reverse :: charSplitGo sep [] rest
    else charSplitGo sep (c :: cur) rest

/-- Split on a separator character keeping empty groups, as Python
`str.split(sep)`. -/
def charSplit (sep : Char) (cs : List Char) : List (List Char) :=
  charSplitGo sep [] cs

/-- Accumulator loop for `wsSplit`. -/
def wsSplitGo (cur : List Char) : List Char → List (List Char)
  | [] => if cur = [] then [] else [cur.reverse]
  | c :: rest =>
    if isSpaceChar c then
      (if cur = [] then wsSplitGo [] rest else cur.reverse :: wsSplitGo [] rest)
    else wsSplitGo (c :: cur) rest

/-- Split on whitespace dropping empty groups, as Python `str.split()`. -/
def wsSplit (cs : List Char) : List (List Char) := wsSplitGo [] cs

/-- Decoded short classifier: raw code text and its description. -/
structure Code where
  repr : List Char
  value : List Char
deriving DecidableEq

/-- Numeric field preserving raw text, integer value and spoken form. -/
structure Number where
  repr : List Char
  value : Nat
  spoken : List Char
deriving DecidableEq

/-- Coordinate; `lat` and `lon` hold the decimal `DD.MM` reading in exact
hundredths. -/
structure Coord where
  lat : Int
  lon : Int
  repr : List Char
deriving DecidableEq

/-- Rational latitude value of a coordinate. -/
def Coord.latQ (c : Coord) : ℚ := (c.lat : ℚ) / 100

/-- Rational longitude value of a coordinate. -/
def Coord.lonQ (c : Coord) : ℚ := (c.lon : ℚ) / 100

/-- Timezone-resolved instant: calendar fields plus offset in minutes. -/
structure Dt where
  year : Nat
  month : Nat
  day : Nat
  hour : Nat
  minute : Nat
  offset : Int
deriving DecidableEq

/-- Timestamp pairing the raw field text with its resolved instant. -/
structure Timestamp where
  repr : List Char
  dt : Dt
deriving DecidableEq

/-- Decoded qualifier (Q-line) record. -/
structure Qualifiers where
  repr : List Char
  fir : List Char
  subject : Option Code
  condition : Option Code
  traffic : Option Code
  purpose : List Code
  scope : List Code
  lower : Option Number
  upper : Option Number
  coord : Option Coord
  radius : Option Number
deriving DecidableEq

/-- Measurement-unit context threaded into `Number` construction. -/
structure Units where
  altitude : List Char
deriving DecidableEq

/-- Units used by the NOTAM decoder in the tests (international units). -/
def inUnits : Units := ⟨ "ft".toList⟩

/-- Top-level decoded NOTAM record. -/
structure NotamData where
  raw : List Char
  station : List Char
  number : List Char
  notam_type : Code
  replaces : Option (List Char)
  issued : Option Timestamp
  start_time : Option Timestamp
  end_time : Option Timestamp
  qualifiers : Option Qualifiers
  body : List Char
deriving DecidableEq

/-- Per-station aggregate of decoded NOTAM records. -/
structure Notams where
  icao : List Char
  last_updated : Option Nat
  data : List NotamData
deriving DecidableEq

/-- Output of the sanitizer for one character, given the next one: a CR that
begins a CRLF pair is dropped (the LF that follows survives), a lone CR
becomes LF, everything else is kept. -/
def sanStep (c : Char) (next : Option Char) : List Char :=
  if c = '\r' then (if next = some '\n' then [] else ['\n']) else [c]

/-- Modelled from the spec: the sanitizer (`notam.sanitize`, §4.1, missing
from the provided sources); it normalizes all line terminators to a single
newline and alters no other content. -/
def sanitizeChars : List Char → List Char
  | [] => []
  | c :: rest => sanStep c rest.head? ++ sanitizeChars rest

/-- Spoken word for one decimal digit. -/
def digitWord (n : Nat) : List Char :=
  (["zero".toList, "one".toList, "two".toList, "three".toList, "four".toList,
    "five".toList, "six".toList, "seven".toList, "eight".toList,
    "nine".toList].getD n [])

/-- Spoken rendering of a digit string: leading zeros dropped, remaining
digits spoken individually, all-zero input spoken as "zero". -/
def spokenFromDigits (cs : List Char) : List Char :=
  match cs.dropWhile (fun c => if c = '0' then true else false) with
  | [] => "zero".toList
  | ds => List.intercalate [' '] (ds.map (fun c => digitWord (digitToNat c)))

/-- Modelled from the spec: `Number` construction for the all-digit fields of
the Q-line (`avwx.parsing.core.make_number` as used by the NOTAM decoder,
missing from the provided sources): a nonempty digit string becomes a
`Number` with its decimal value and digit-wise spoken form, anything else is
`None`. -/
def make_number (cs : List Char) : Option Number :=
  if cs ≠ [] ∧ cs.all isDigitChar then
    some ⟨cs, natFromDigits cs, spokenFromDigits cs⟩
  else none

/-- Character-class check for the rear-coordinate fragment
`DDMM[N|S]DDDMM[E|W][digits]`. -/
def validShape : List Char → Bool
  | a :: b :: c :: d :: h1 :: e :: f :: g :: i :: j :: h2 :: rest =>
    isDigitChar a && isDigitChar b && isDigitChar c && isDigitChar d &&
    (if h1 = 'N' ∨ h1 = 'S' then true else false) &&
    isDigitChar e && isDigitChar f && isDigitChar g && isDigitChar i &&
    isDigitChar j &&
    (if h2 = 'E' ∨ h2 = 'W' then true else false) &&
    rest.all isDigitChar
  | _ => false

/-- Modelled from the spec: the rear-coordinate extractor (`notam._rear_coord`
plus the radius split of the qualifier tail, §4.3, missing from the provided
sources). The committed test vectors (`test_rear_coord`) pin the value read
from the digits as the decimal `DD.MM` / `DDD.MM` (stored in hundredths),
signed by hemisphere; trailing digits become the radius; a fragment violating
the character classes yields `none`. -/
def _rear_coord (cs : List Char) : Option (Coord × Option Number) :=
  if validShape cs then
    match cs with
    | a :: b :: c :: d :: h1 :: e :: f :: g :: i :: j :: h2 :: rest =>
      let latN : Int := Int.ofNat (natFromDigits [a, b, c, d])
      let lonN : Int := Int.ofNat (natFromDigits [e, f, g, i, j])
      some (⟨if h1 = 'S' then -latN else latN,
             if h2 = 'W' then -lonN else lonN,
             [a, b, c, d, h1, e, f, g, i, j, h2]⟩,
            make_number rest)
    | _ => none
  else none

/-- Instant the permanence sentinel resolves to: 2100-01-01T00:00:00 UTC. -/
def permDt : Dt := ⟨2100, 1, 1, 0, 0, 0⟩

/-- Gregorian leap-year test. -/
def isLeapYear (y : Nat) : Bool :=
  if y % 4 = 0 ∧ (y % 100 ≠ 0 ∨ y % 400 = 0) then true else false

/-- Days in a calendar month. -/
def daysInMonth (y m : Nat) : Nat :=
  if m = 2 then (if isLeapYear y then 29 else 28)
  else if m = 4 ∨ m = 6 ∨ m = 9 ∨ m = 11 then 30
  else 31

/-- Modelled from the spec: the timezone-name table (§4.5, resolved through
`dateutil.tz.gettz` in the source, missing from the provided sources), as
fixed offsets in minutes. -/
def tzTable : List (List Char × Int) :=
  [("UTC".toList, 0), ("GMT".toList, 0), ("EST".toList, -300),
   ("EDT".toList, -240), ("CST".toList, -360), ("CDT".toList, -300),
   ("MST".toList, -420), ("MDT".toList, -360), ("PST".toList, -480),
   ("PDT".toList, -420)]

/-- Offset in minutes for an optional timezone abbreviation: absent or
unrecognized abbreviations fall back to UTC. -/
def tzOffsetOf (tzname : Option (List Char)) : Int :=
  match tzname with
  | none => 0
  | some tz => (((tzTable.find? (fun p => p.1 == tz)).map (fun p => p.2)).getD 0)

/-- Field parse of a 10-digit `YYMMDDHHMM` string with the fixed century
pivot `2000 + YY` and calendar-range validation. -/
def parseYMD (cs : List Char) : Option (Nat × Nat × Nat × Nat × Nat) :=
  match cs with
  | [y1, y2, mo1, mo2, d1, d2, h1, h2, mi1, mi2] =>
    if ([y1, y2, mo1, mo2, d1, d2, h1, h2, mi1, mi2].all isDigitChar) then
      let y := 2000 + natFromDigits [y1, y2]
      let mo := natFromDigits [mo1, mo2]
      let dd := natFromDigits [d1, d2]
      let hh := natFromDigits [h1, h2]
      let mi := natFromDigits [mi1, mi2]
      if 1 ≤ mo ∧ mo ≤ 12 ∧ 1 ≤ dd ∧ dd ≤ daysInMonth y mo ∧ hh ≤ 23 ∧ mi ≤ 59
      then some (y, mo, dd, hh, mi)
      else none
    else none
  | _ => none

/-- Modelled from the spec: the timestamp resolver
(`notam.make_year_timestamp`, §4.5, missing from the provided sources). The
first argument is the date text with any timezone abbreviation already
removed by the caller, the second the raw text kept in the `Timestamp`, the
third the default timezone abbreviation. Blank input resolves to `none`, the
`PERM` sentinel to the fixed far-future instant, a valid 10-digit string to
its calendar instant at the resolved offset, and anything else to `none`. -/
def make_year_timestamp (date repr0 : List Char) (tzname : Option (List Char)) :
    Option Timestamp :=
  let d := trimChars date
  if d = [] then none
  else if d = "PERM".toList then some ⟨repr0, permDt⟩
  else
    match parseYMD d with
    | some (y, mo, dd, hh, mi) => some ⟨repr0, ⟨y, mo, dd, hh, mi, tzOffsetOf tzname⟩⟩
    | none => none

/-- Split a trailing 2-to-4-letter timezone abbreviation off a time field;
an all-letter field (such as the `PERM` sentinel) is not split. -/
def splitTz (cs : List Char) : List Char × Option (List Char) :=
  let k := (cs.reverse.takeWhile isAlphaChar).length
  if 2 ≤ k ∧ k ≤ 4 ∧ k < cs.length then
    (cs.take (cs.length - k), some (cs.drop (cs.length - k)))
  else (cs, none)

/-- Modelled from the spec: the linked-time resolver
(`notam.parse_linked_times`, §4.6, missing from the provided sources): when
exactly one member carries an explicit trailing timezone abbreviation, the
other member is resolved with that abbreviation as its default; otherwise
each member resolves on its own (UTC default). -/
def parse_linked_times (start0 end0 : List Char) :
    Option Timestamp × Option Timestamp :=
  let s := trimChars start0
  let e := trimChars end0
  let sp := splitTz s
  let ep := splitTz e
  match sp.2, ep.2 with
  | some tz, none =>
    (make_year_timestamp sp.1 s (some tz), make_year_timestamp ep.1 e (some tz))
  | none, some tz =>
    (make_year_timestamp sp.1 s (some tz), make_year_timestamp ep.1 e (some tz))
  | _, _ =>
    (make_year_timestamp sp.1 s sp.2, make_year_timestamp ep.1 e ep.2)

/-- Modelled from the spec: NOTAM subject code table entries exercised by the
test suite, plus the `XX` placeholder. -/
def subjectCodes : List (List Char × List Char) :=
  [("FA".toList, "Aerodrome".toList),
   ("MX".toList, "Taxiway".toList),
   ("PI".toList, "Instrument approach procedure".toList),
   ("WM".toList, "Missile, gun or rocket firing".toList),
   ("XX".toList, "Unknown".toList)]

/-- Modelled from the spec: NOTAM condition code table entries exercised by
the test suite, plus the `XX` placeholder. -/
def conditionCodes : List (List Char × List Char) :=
  [("LC".toList, "Closed".toList),
   ("LW".toList, "Will take place".toList),
   ("XX".toList, "Unknown".toList)]

/-- Modelled from the spec: traffic type code table. -/
def trafficCodes : List (List Char × List Char) :=
  [("I".toList, "IFR".toList),
   ("IV".toList, "IFR and VFR".toList),
   ("V".toList, "VFR".toList)]

/-- Modelled from the spec: purpose code table. -/
def purposeCodes : List (List Char × List Char) :=
  [("B".toList, "Briefing".toList),
   ("M".toList, "Miscellaneous".toList),
   ("N".toList, "Immediate".toList),
   ("O".toList, "Flight Operations".toList)]

/-- Modelled from the spec: scope code table. -/
def scopeCodes : List (List Char × List Char) :=
  [("A".toList, "Aerodrome".toList),
   ("E".toList, "En-route".toList),
   ("K".toList, "Checklist".toList),
   ("W".toList, "Warning".toList)]

/-- NOTAM type character table: `{N: New, R: Replace, C: Cancel}`. -/
def notamTypeCodes : List (List Char × List Char) :=
  [("N".toList, "New".toList),
   ("R".toList, "Replace".toList),
   ("C".toList, "Cancel".toList)]

/-- Table lookup producing a `Code`; unmatched keys yield `none`. -/
def lookupCode (table : List (List Char × List Char)) (key : List Char) :
    Option Code :=
  (table.find? (fun p => p.1 == key)).map (fun p => ⟨p.1, p.2⟩)

/-- Per-character lookup of a code group; unrecognized characters are
skipped, order and duplicates preserved. -/
def charCodes (table : List (List Char × List Char)) (g : List Char) :
    List Code :=
  g.filterMap (fun c => lookupCode table [c])

/-- Fold distributing the variable middle groups of the Q-line over traffic
(first whole-group match), purpose and scope (per-character lookups). -/
def qCodesGo (acc : Option Code × List Code × List Code) :
    List (List Char) → Option Code × List Code × List Code
  | [] => acc
  | g :: rest =>
    if acc.1 = none ∧ lookupCode trafficCodes g ≠ none then
      qCodesGo (lookupCode trafficCodes g, acc.2.1, acc.2.2) rest
    else
      qCodesGo (acc.1, acc.2.1 ++ charCodes purposeCodes g,
                acc.2.2 ++ charCodes scopeCodes g) rest

/-- Coordinate/radius tail of the Q-line: the result of the rear-coordinate
extractor, both `none` when extraction fails or the tail is empty. -/
def locationOf (location : List Char) : Option Coord × Option Number :=
  match _rear_coord location with
  | some (c, r) => (some c, r)
  | none => (none, none)

/-- Modelled from the spec: the qualifier parser (`notam._qualifiers`, §4.4,
missing from the provided sources). The payload is slash-split and each
group stripped; the last three groups are lower limit, upper limit and
coordinate tail; the first two are FIR and the subject/condition group, the
rest are traffic/purpose/scope code groups. A payload with fewer than the
minimum number of groups is a structural failure (`none`). -/
def _qualifiers (text : List Char) (units : Units) : Option Qualifiers :=
  let data := (charSplit '/' text).map trimChars
  match data with
  | fir :: qcode :: rest =>
    match rest.reverse with
    | location :: upper :: lower :: revCodes =>
      let tps := qCodesGo (none, [], []) revCodes.reverse
      let loc := locationOf location
      some ⟨text, fir,
            lookupCode subjectCodes ((qcode.drop 1).take 2),
            lookupCode conditionCodes ((qcode.drop 3).take 2),
            tps.1, tps.2.1, tps.2.2,
            make_number lower, make_number upper,
            loc.1, loc.2⟩
    | _ => none
  | _ => none

/-- Modelled from the spec: the header parser (`notam._header`, §4.2, missing
from the provided sources): first line shaped
`"<number> NOTAM<char>[ <replaces>]"`, the type code raw value is
`NOTAM + char` with its description from the fixed type table; a missing
token pattern is a structural failure (`none`). -/
def _header (text : List Char) : Option (List Char × Code × Option (List Char)) :=
  match wsSplit text with
  | number :: ty :: rest =>
    if ty.take 5 = "NOTAM".toList ∧ ty.length = 6 then
      match lookupCode notamTypeCodes (ty.drop 5) with
      | some c => some (number, ⟨ty, c.value⟩, rest.head?)
      | none => none
    else none
  | _ => none

/-- Tag-start test: an uppercase letter followed by `") "`, at the start of
the text or after a non-word character, whose letter has not already been
consumed (a tag letter reappearing later, the "copied tag", stays in the
current field). -/
def tagStartB (prev : Option Char) (seen : List Char) (c1 : Char)
    (rest : List Char) : Bool :=
  isUpperChar c1 &&
  (match rest with
   | c2 :: c3 :: _ => if c2 = ')' ∧ c3 = ' ' then true else false
   | _ => false) &&
  (match prev with
   | none => true
   | some p => !(isWordChar p)) &&
  !(seen.contains c1)

/-- Scanner for `splitTags`: `skip` counts characters of a tag marker still
to drop, `prev` is the previously consumed character, `seen` the tag letters
already consumed. Returns the current field content and the later fields. -/
def splitTagsGo (skip : Nat) (prev : Option Char) (seen : List Char) :
    List Char → List Char × List (Char × List Char)
  | [] => ([], [])
  | c :: rest =>
    match skip with
    | s + 1 => splitTagsGo s (some c) seen rest
    | 0 =>
      if tagStartB prev seen c rest then
        let r := splitTagsGo 2 (some c) (c :: seen) rest
        ([], (c, r.1) :: r.2)
      else
        let r := splitTagsGo 0 (some c) seen rest
        (c :: r.1, r.2)

/-- Modelled from the spec: split a sanitized report into the header text and
the tagged fields (§4.8), keeping the first occurrence of each tag letter. -/
def splitTags (text : List Char) : List Char × List (Char × List Char) :=
  splitTagsGo 0 none [] text

/-- Content of a tag, if present. -/
def lookupTag (c : Char) (fields : List (Char × List Char)) :
    Option (List Char) :=
  (fields.find? (fun p => p.1 == c)).map (fun p => p.2)

/-- Content of a tag, defaulting to empty. -/
def getTag (c : Char) (fields : List (Char × List Char)) : List Char :=
  (lookupTag c fields).getD []

/-- Fuelled loop stripping a duplicated Q-line payload off the front of the
body, with following whitespace, until the body no longer starts with it. -/
def stripDupGo : Nat → List Char → List Char → List Char
  | 0, body, _ => body
  | fuel + 1, body, qp =>
    if qp ≠ [] ∧ qp.isPrefixOf body then
      stripDupGo fuel (lstripChars (body.drop qp.length)) qp
    else body

/-- Strip a duplicated Q-line payload from the front of the body text. -/
def stripDupTag (body qp : List Char) : List Char :=
  stripDupGo (body.length + 1) body qp

/-- Modelled from the spec: the body extractor (§4.7, missing from the
provided sources): the stripped `E)` field content with a duplicated Q-line
payload removed from its front. -/
def extractBody (etext qp : List Char) : List Char :=
  stripDupTag (trimChars etext) qp

/-- Modelled from the spec: the parse orchestrator (`notam.parse`, §4.8,
missing from the provided sources): sanitize, split into tagged fields, parse
the header (structural failure is fatal), parse the Q-line if present
(structural failure is fatal), resolve the linked `B)`/`C)` times, extract
the `E)` body, and assemble the record with the raw input preserved. -/
def parse (report : List Char) : Option NotamData :=
  let sanitized := sanitizeChars report
  let parts := splitTags sanitized
  match _header parts.1 with
  | none => none
  | some (number, ntype, repl) =>
    let fields := parts.2
    let times := parse_linked_times (getTag 'B' fields) (getTag 'C' fields)
    match lookupTag 'Q' fields with
    | some qraw =>
      let qp := trimChars qraw
      match _qualifiers qp inUnits with
      | none => none
      | some q =>
        some ⟨report, trimChars (getTag 'A' fields), number, ntype, repl,
              none, times.1, times.2, some q,
              extractBody (getTag 'E' fields) qp⟩
    | none =>
      some ⟨report, trimChars (getTag 'A' fields), number, ntype, repl,
            none, times.1, times.2, none,
            extractBody (getTag 'E' fields) []⟩

/-- Modelled from the spec: the station aggregate ingest (§4.9, missing from
the provided sources): parse every report, keep the successes in input order
as the new record list (full refresh), return `true` and stamp
`last_updated` with the ingest time iff at least one report parsed, and
leave the aggregate untouched otherwise. -/
def Notams.ingest (st : Notams) (reports : List (List Char)) (now : Nat) :
    Bool × Notams :=
  let parsed := reports.filterMap parse
  if parsed.isEmpty then (false, st)
  else (true, ⟨st.icao, some now, parsed⟩)

/-- Fetch service state, from `avwx/service/base.py`. -/
structure Service where
  url : Option String
  report_type : String
  valid_types : List String
deriving DecidableEq

/-- Constructor of `Service` from `avwx/service/base.py`: when the configured
tuple of valid report types is nonempty and the requested type is not in it,
a `ValueError` is raised (embedded as `Except.error`); otherwise the type is
stored on the instance. -/
def Service.init (validTypes : List String) (reportType : String) :
    Except String Service :=
  if validTypes ≠ [] ∧ reportType ∉ validTypes then
    .error (reportType ++ " is not a valid report type for Service")
  else .ok { url := none, report_type := reportType, valid_types := validTypes }



def copiedTagReport : String :=
  "\nA3475/22 NOTAMN\n" ++
  "Q) LIMM/QFAXX/IV/NBO/A/000/999/4537N00843E005\n" ++
  "A) LIMC B) 2205182200 C) PERM\n" ++
  "E) REF AIP AD 2 LIMC 1-12 ITEM 20 \x27LOCAL TRAFFIC REGULATIONS\x27\n" ++
  "BOX 2 \x27APRON\x27 PARAGRAPH 2.1 \x27ORDERLY MOVEMENT OF AIRCRAFT ON\n" ++
  "APRONS\x27 INDENT 4 \x27SERVICES PROVIDED\x27 POINT C) \x27FOLLOW-ME ASSISTANCE\n" ++
  "PROVIDED ON PILOT\x27S REQUEST AND MANDATORY IN CASE\x27 ADD THE FOLLOWING\n" ++
  "IN CASE:\n" ++
  "- GENERAL AVIATION AIRCRAFT UP TO ICAO CODE B (MAXIMUM WINGSPAN 24\n" ++
  "METERS) AND HELICOPTERS ARRIVING AND DEPARTING FROM STANDS 301 TO 320\n" ++
  "AND FROM 330 TO 336.\n" ++
  "ARR TAXI ROUTE: AFTER TWR INSTRUCTIONS VIA APN TAXIWAY P-K TO\n" ++
  "INTERMEDIATE HOLDING POSITION (IHP) K9 WHERE FOLLOW-ME CAR WILL\n" ++
  "BE WAITING.\n" ++
  "DEP TAXI ROUTE: AFTER TWR INSTRUCTIONS AND WITH FOLLOW-ME\n" ++
  "ASSISTANCE VIA APN TAXIWAY N-K TO IHP K8\n"

def report01 : String :=
  "01/113 NOTAMN \r\nQ) ZNY/QMXLC/IV/NBO/A/000/999/4038N07346W005 \r\n" ++
  "A) KJFK \r\nB) 2101081328 \r\nC) 2209301100 \r\n\r\n" ++
  "E) TWY TB BTN TERMINAL 8 RAMP AND TWY A CLSD"

-- test_sanitize
theorem check_sanitize :
    sanitizeChars ("01/113 NOTAMN \r\nQ) 1234".toList) = "01/113 NOTAMN \nQ) 1234".toList := by decide

-- test_rear_coord
theorem check_rc1 : _rear_coord ("5126N00036W".toList) = some (⟨5126, -36, "5126N00036W".toList⟩, none) := by decide
theorem check_rc2 : _rear_coord ("1234S14321E".toList) = some (⟨-1234, 14321, "1234S14321E".toList⟩, none) := by decide
theorem check_rc3 : _rear_coord ("2413N01234W".toList) = some (⟨2413, -1234, "2413N01234W".toList⟩, none) := by decide
theorem check_rc_bad : _rear_coord ("latNlongE".toList) = none := by decide

-- test_header
theorem check_header : _header ("01/113 NOTAMN".toList) =
    some ("01/113".toList, ⟨ "NOTAMN".toList, "New".toList⟩, none) := by decide

-- test_qualifiers vector 1
theorem check_q1 : _qualifiers ("ZNY/QPIXX/I/NBO/A/000/999/4038N07346W025".toList) inUnits =
    some ⟨ "ZNY/QPIXX/I/NBO/A/000/999/4038N07346W025".toList, "ZNY".toList,
      some ⟨ "PI".toList, "Instrument approach procedure".toList⟩,
      some ⟨ "XX".toList, "Unknown".toList⟩,
      some ⟨ "I".toList, "IFR".toList⟩,
      [⟨ "N".toList, "Immediate".toList⟩, ⟨ "B".toList, "Briefing".toList⟩, ⟨ "O".toList, "Flight Operations".toList⟩],
      [⟨ "A".toList, "Aerodrome".toList⟩],
      some ⟨ "000".toList, 0, "zero".toList⟩,
      some ⟨ "999".toList, 999, "nine nine nine".toList⟩,
      some ⟨4038, -7346, "4038N07346W".toList⟩,
      some ⟨ "025".toList, 25, "two five".toList⟩⟩ := by decide

-- test_qualifiers vector 2 (undefined subject group)
theorem check_q2 : _qualifiers ("ZJX/undefined/NBO/A/000/999/2825N08118W025".toList) inUnits =
    some ⟨ "ZJX/undefined/NBO/A/000/999/2825N08118W025".toList, "ZJX".toList,
      none, none, none,
      [⟨ "N".toList, "Immediate".toList⟩, ⟨ "B".toList, "Briefing".toList⟩, ⟨ "O".toList, "Flight Operations".toList⟩],
      [⟨ "A".toList, "Aerodrome".toList⟩],
      some ⟨ "000".toList, 0, "zero".toList⟩,
      some ⟨ "999".toList, 999, "nine nine nine".toList⟩,
      some ⟨2825, -8118, "2825N08118W".toList⟩,
      some ⟨ "025".toList, 25, "two five".toList⟩⟩ := by decide

-- test_qualifiers vector 3
theorem check_q3 : _qualifiers ("EGTT/QWMLW/IV/BO /AW/000/001/5125N00028W002".toList) inUnits =
    some ⟨ "EGTT/QWMLW/IV/BO /AW/000/001/5125N00028W002".toList, "EGTT".toList,
      some ⟨ "WM".toList, "Missile, gun or rocket firing".toList⟩,
      some ⟨ "LW".toList, "Will take place".toList⟩,
      some ⟨ "IV".toList, "IFR and VFR".toList⟩,
      [⟨ "B".toList, "Briefing".toList⟩, ⟨ "O".toList, "Flight Operations".toList⟩],
      [⟨ "A".toList, "Aerodrome".toList⟩, ⟨ "W".toList, "Warning".toList⟩],
      some ⟨ "000".toList, 0, "zero".toList⟩,
      some ⟨ "001".toList, 1, "one".toList⟩,
      some ⟨5125, -28, "5125N00028W".toList⟩,
      some ⟨ "002".toList, 2, "two".toList⟩⟩ := by decide

-- test_qualifiers vector 4
theorem check_q4 : _qualifiers ("OIIX/QPIXX/A/000/999/".toList) inUnits =
    some ⟨ "OIIX/QPIXX/A/000/999/".toList, "OIIX".toList,
      some ⟨ "PI".toList, "Instrument approach procedure".toList⟩,
      some ⟨ "XX".toList, "Unknown".toList⟩,
      none, [],
      [⟨ "A".toList, "Aerodrome".toList⟩],
      some ⟨ "000".toList, 0, "zero".toList⟩,
      some ⟨ "999".toList, 999, "nine nine nine".toList⟩,
      none, none⟩ := by decide

-- test_make_year_timestamp
theorem check_ts1 : make_year_timestamp ("2110121506".toList) ("2110121506".toList) none =
    some ⟨ "2110121506".toList, ⟨2021, 10, 12, 15, 6, 0⟩⟩ := by decide
theorem check_ts2 : make_year_timestamp ("2205241452".toList) ("2205241452EST".toList) (some ("EST".toList)) =
    some ⟨ "2205241452EST".toList, ⟨2022, 5, 24, 14, 52, -300⟩⟩ := by decide
theorem check_ts3 : make_year_timestamp ("PERM".toList) ("PERM".toList) none =
    some ⟨ "PERM".toList, ⟨2100, 1, 1, 0, 0, 0⟩⟩ := by decide
theorem check_ts_bad : make_year_timestamp (" ".toList) (" ".toList) none = none := by decide

-- test_parse_linked_times
theorem check_lt1 : parse_linked_times ("2107221958".toList) ("2307221957EST".toList) =
    (some ⟨ "2107221958".toList, ⟨2021, 7, 22, 19, 58, -300⟩⟩,
     some ⟨ "2307221957EST".toList, ⟨2023, 7, 22, 19, 57, -300⟩⟩) := by decide
theorem check_lt2 : parse_linked_times ("2203231000".toList) ("2303231300".toList) =
    (some ⟨ "2203231000".toList, ⟨2022, 3, 23, 10, 0, 0⟩⟩,
     some ⟨ "2303231300".toList, ⟨2023, 3, 23, 13, 0, 0⟩⟩) := by decide
theorem check_lt3 : parse_linked_times ("2107221958EST".toList) ("".toList) =
    (some ⟨ "2107221958EST".toList, ⟨2021, 7, 22, 19, 58, -300⟩⟩, none) := by decide
theorem check_lt4 : parse_linked_times ("".toList) ("2107221958".toList) =
    (none, some ⟨ "2107221958".toList, ⟨2021, 7, 22, 19, 58, 0⟩⟩) := by decide
theorem check_lt5 : parse_linked_times ("".toList) ("".toList) = (none, none) := by decide

-- test_copied_tag
set_option maxRecDepth 100000 in
theorem check_copied :
    ((parse copiedTagReport.toList).map (fun d => (d.body.take 7, d.end_time.map (fun t => t.repr)))) =
    some ("REF AIP".toList, some ("PERM".toList)) := by decide

-- test_parse
set_option maxRecDepth 100000 in
theorem check_parse : ((parse report01.toList).map (fun d => d.raw)) = some report01.toList := by decide


/-- Sanitized text never contains a carriage return. -/
theorem cr_not_mem_sanitizeChars (x : List Char) : '\r' ∉ sanitizeChars x := by
  induction x with
  | nil => simp [sanitizeChars]
  | cons c rest ih =>
    simp only [sanitizeChars, List.mem_append]
    rintro (h | h)
    · simp only [sanStep] at h
      split at h
      · split at h <;> simp_all
      · simp_all
        exact absurd h.symm (by assumption)
    · exact ih h

/-- Text without carriage returns is left unchanged by the sanitizer. -/
theorem sanitizeChars_of_cr_not_mem {x : List Char} (h : '\r' ∉ x) :
    sanitizeChars x = x := by
  induction x with
  | nil => rfl
  | cons c rest ih =>
    have hc : c ≠ '\r' := fun hc => h (hc ▸ List.mem_cons_self c rest)
    have hr : '\r' ∉ rest := fun hr => h (List.mem_cons_of_mem c hr)
    simp only [sanitizeChars, sanStep, if_neg hc, List.singleton_append,
      List.cons.injEq, true_and]
    exact ih hr

/-- Claim C8: the sanitizer is idempotent; it normalizes every CRLF pair to a
single newline; and on text with no carriage return at all it alters
nothing. -/
theorem claim_C8 (x : List Char) :
    sanitizeChars (sanitizeChars x) = sanitizeChars x
    ∧ sanitizeChars ('\r' :: '\n' :: x) = '\n' :: sanitizeChars x
    ∧ ('\r' ∉ x → sanitizeChars x = x) := by
  refine ⟨sanitizeChars_of_cr_not_mem (cr_not_mem_sanitizeChars x), ?_,
    fun h => sanitizeChars_of_cr_not_mem h⟩
  simp [sanitizeChars, sanStep]

/-- Witness for claim C8 at the report line of the sanitizer test. -/
theorem claim_C8_witness :
    sanitizeChars (sanitizeChars ("01/113 NOTAMN \r\nQ) 1234".toList))
      = sanitizeChars ("01/113 NOTAMN \r\nQ) 1234".toList)
    ∧ sanitizeChars ("01/113 NOTAMN \nQ) 1234".toList)
      = "01/113 NOTAMN \nQ) 1234".toList := by
  exact ⟨(claim_C8 ("01/113 NOTAMN \r\nQ) 1234".toList)).1,
    (claim_C8 ("01/113 NOTAMN \nQ) 1234".toList)).2.2 (by decide)⟩

/-- Claim C3: resolving the `PERM` sentinel yields the fixed instant
2100-01-01T00:00:00 UTC with the sentinel text as raw, whatever default
timezone abbreviation is supplied. -/
theorem claim_C3 (tzname : Option (List Char)) :
    make_year_timestamp ("PERM".toList) ("PERM".toList) tzname
      = some ⟨ "PERM".toList, ⟨2100, 1, 1, 0, 0, 0⟩⟩ := by
  rfl

/-- Claim C4: the timestamp resolver is total — every input yields `none` or
some `Timestamp`; blank input yields `none`; and non-sentinel input that is
not a valid 10-digit string also yields `none`. -/
theorem claim_C4 (date repr0 : List Char) (tzname : Option (List Char)) :
    (make_year_timestamp date repr0 tzname = none
      ∨ ∃ ts, make_year_timestamp date repr0 tzname = some ts)
    ∧ (trimChars date = [] → make_year_timestamp date repr0 tzname = none)
    ∧ (trimChars date ≠ "PERM".toList → parseYMD (trimChars date) = none →
        make_year_timestamp date repr0 tzname = none) := by
  refine ⟨?_, ?_, ?_⟩
  · cases h : make_year_timestamp date repr0 tzname with
    | none => exact Or.inl rfl
    | some ts => exact Or.inr ⟨ts, rfl⟩
  · intro h
    simp only [make_year_timestamp]
    rw [h]
    rfl
  · intro hperm hparse
    by_cases hb : trimChars date = []
    · simp only [make_year_timestamp]
      rw [hb]
      rfl
    · simp only [make_year_timestamp]
      rw [if_neg hb, if_neg hperm, hparse]

/-- Witness for claim C4 at the blank input of the bad-timestamp test. -/
theorem claim_C4_witness :
    make_year_timestamp (" ".toList) (" ".toList) none = none
    ∧ make_year_timestamp ("21AB".toList) ("21AB".toList) none = none := by
  exact ⟨(claim_C4 (" ".toList) (" ".toList) none).2.1 (by decide),
    (claim_C4 ("21AB".toList) ("21AB".toList) none).2.2 (by decide) (by decide)⟩

/-- Claim C9: constructing a `Service` with a report type inside the
configured set succeeds and stores the type; with a nonempty configured set
and a report type outside it, it raises the configuration `ValueError`. -/
theorem claim_C9 (validTypes : List String) (reportType : String) :
    (reportType ∈ validTypes →
      Service.init validTypes reportType
        = Except.ok ⟨none, reportType, validTypes⟩)
    ∧ (validTypes ≠ [] → reportType ∉ validTypes →
      Service.init validTypes reportType
        = Except.error (reportType ++ " is not a valid report type for Service")) := by
  constructor
  · intro hmem
    simp only [Service.init]
    rw [if_neg]
    rintro ⟨-, hnot⟩
    exact hnot hmem
  · intro hne hnot
    simp only [Service.init]
    rw [if_pos ⟨hne, hnot⟩]

/-- Witness for claim C9: both branches at a concrete configured set. -/
theorem claim_C9_witness :
    Service.init ["metar"] "metar" = Except.ok ⟨none, "metar", ["metar"]⟩
    ∧ Service.init ["metar"] "taf"
      = Except.error ("taf" ++ " is not a valid report type for Service") := by
  exact ⟨(claim_C9 ["metar"] "metar").1 (by simp),
    (claim_C9 ["metar"] "taf").2 (by simp) (by simp)⟩

/-- Claim C10: with the empty default set of valid types, construction never
validates — every report type is accepted and stored, so the configuration
error is unreachable. -/
theorem claim_C10 (reportType : String) :
    Service.init [] reportType = Except.ok ⟨none, reportType, []⟩ := by
  rfl


/-- Claim C2: `ingest` returns `true` iff at least one report of the batch
parses; on success the record sequence is exactly the successfully parsed
records in input order and `last_updated` is the ingest time; on total
failure it returns `false` and leaves the aggregate unchanged. -/
theorem claim_C2 (st : Notams) (reports : List (List Char)) (now : Nat) :
    ((Notams.ingest st reports now).1 = true
      ↔ 0 < (reports.filterMap parse).length)
    ∧ (reports.filterMap parse ≠ [] →
        (Notams.ingest st reports now).2
          = ⟨st.icao, some now, reports.filterMap parse⟩)
    ∧ (reports.filterMap parse = [] →
        (Notams.ingest st reports now).1 = false
        ∧ (Notams.ingest st reports now).2 = st) := by
  simp only [Notams.ingest]
  by_cases h : (reports.filterMap parse).isEmpty
  · rw [if_pos h]
    have hnil : reports.filterMap parse = [] := List.isEmpty_iff.mp h
    refine ⟨?_, fun hne => absurd hnil hne, fun _ => ⟨rfl, rfl⟩⟩
    simp [hnil]
  · rw [if_neg h]
    have hne : reports.filterMap parse ≠ [] := fun hn => h (by simp [hn])
    refine ⟨?_, fun _ => rfl, fun hnil => absurd hnil hne⟩
    simp [List.length_pos, hne]

set_option maxRecDepth 100000 in
/-- Witness for claim C2 at the full-decode report of `test_parse`, ingested
into a fresh KJFK aggregate. -/
theorem claim_C2_witness :
    (Notams.ingest ⟨ "KJFK".toList, none, []⟩ [report01.toList] 7).1 = true
    ∧ (Notams.ingest ⟨ "KJFK".toList, none, []⟩ [report01.toList] 7).2
      = ⟨ "KJFK".toList, some 7, [report01.toList].filterMap parse⟩
    ∧ (Notams.ingest ⟨ "KJFK".toList, some 3, []⟩ [" ".toList] 7).1 = false
    ∧ (Notams.ingest ⟨ "KJFK".toList, some 3, []⟩ [" ".toList] 7).2
      = ⟨ "KJFK".toList, some 3, []⟩ := by
  refine ⟨(claim_C2 _ _ _).1.mpr (by decide), (claim_C2 _ _ _).2.1 (by decide),
    ((claim_C2 _ _ _).2.2 (by decide)).1, ((claim_C2 _ _ _).2.2 (by decide)).2⟩

/-- Claim C6: under the structural split of the Q-line payload, subject and
condition are the independent 2-character lookups from the second group; the
placeholder `XX` yields a `Code` described "Unknown" in both tables; and the
unrecognized group `undefined` yields `none` for both subfields. -/
theorem claim_C6 (text : List Char) (units : Units) (fir qcode : List Char)
    (rest : List (List Char)) :
    ((charSplit '/' text).map trimChars = fir :: qcode :: rest →
      3 ≤ rest.length →
      (_qualifiers text units).map (fun q => (q.subject, q.condition))
        = some (lookupCode subjectCodes ((qcode.drop 1).take 2),
                lookupCode conditionCodes ((qcode.drop 3).take 2)))
    ∧ lookupCode subjectCodes ("XX".toList)
        = some ⟨ "XX".toList, "Unknown".toList⟩
    ∧ lookupCode conditionCodes ("XX".toList)
        = some ⟨ "XX".toList, "Unknown".toList⟩
    ∧ (_qualifiers ("ZJX/undefined/NBO/A/000/999/2825N08118W025".toList) units).map
        (fun q => (q.subject, q.condition)) = some (none, none) := by
  refine ⟨?_, by decide, by decide, ?_⟩
  · intro hsplit hlen
    rcases hrev : rest.reverse with _ | ⟨location, _ | ⟨upper, _ | ⟨lower, revCodes⟩⟩⟩
    · rw [List.reverse_eq_nil_iff] at hrev
      simp [hrev] at hlen
    · have : rest.length = 1 := by
        have := congrArg List.length hrev
        simpa using this
      omega
    · have : rest.length = 2 := by
        have := congrArg List.length hrev
        simpa using this
      omega
    · have hr2 : rest = (location :: upper :: lower :: revCodes).reverse := by
        rw [← hrev, List.reverse_reverse]
      subst hr2
      simp only [_qualifiers]
      rw [hsplit]
      simp only [List.reverse_reverse]
      rfl
  · rfl

/-- Witness for claim C6 at the first qualifier test vector. -/
theorem claim_C6_witness :
    (_qualifiers ("ZNY/QPIXX/I/NBO/A/000/999/4038N07346W025".toList) inUnits).map
      (fun q => (q.subject, q.condition))
      = some (some ⟨ "PI".toList, "Instrument approach procedure".toList⟩,
              some ⟨ "XX".toList, "Unknown".toList⟩) := by
  have h := (claim_C6 ("ZNY/QPIXX/I/NBO/A/000/999/4038N07346W025".toList)
      inUnits ("ZNY".toList) ("QPIXX".toList)
      ["I".toList, "NBO".toList, "A".toList, "000".toList, "999".toList,
       "4038N07346W025".toList]).1 (by decide) (by decide)
  rw [h]
  decide


/-- Instant at the parsed calendar fields with a given offset. -/
def mkDtOf (f : Nat × Nat × Nat × Nat × Nat) (off : Int) : Dt :=
  ⟨f.1, f.2.1, f.2.2.1, f.2.2.2.1, f.2.2.2.2, off⟩

/-- Digit characters are not whitespace. -/
theorem isSpaceChar_eq_false_of_digit {c : Char} (h : isDigitChar c = true) :
    isSpaceChar c = false := by
  simp only [isSpaceChar]
  split
  · rename_i hc
    rcases hc with h1 | h1 | h1 | h1 <;> subst h1 <;> exact absurd h (by decide)
  · rfl

/-- A successful 10-digit parse forces an all-digit input of length ten. -/
theorem parseYMD_shape {cs : List Char} {f : Nat × Nat × Nat × Nat × Nat}
    (h : parseYMD cs = some f) :
    cs.all isDigitChar = true ∧ cs.length = 10 := by
  unfold parseYMD at h
  split at h
  · split at h
    · rename_i hall
      exact ⟨by simpa using hall, rfl⟩
    · exact absurd h (by simp)
  · exact absurd h (by simp)

/-- Stripping fixes a list whose members are all non-whitespace. -/
theorem trimChars_eq_self {cs : List Char}
    (h : ∀ c ∈ cs, isSpaceChar c = false) : trimChars cs = cs := by
  have hl : ∀ (l : List Char), (∀ c ∈ l, isSpaceChar c = false) →
      l.dropWhile isSpaceChar = l := by
    intro l hlm
    cases l with
    | nil => rfl
    | cons a t =>
      simp only [List.dropWhile_cons, hlm a (List.mem_cons_self a t)]
      simp
  simp only [trimChars, lstripChars, rstripChars]
  rw [hl cs.reverse (fun c hc => h c (List.mem_reverse.mp hc)), List.reverse_reverse,
    hl cs h]

/-- A successfully parsed date string is already stripped. -/
theorem trimChars_eq_self_of_parseYMD {cs : List Char}
    {f : Nat × Nat × Nat × Nat × Nat} (h : parseYMD cs = some f) :
    trimChars cs = cs := by
  have hall := (parseYMD_shape h).1
  refine trimChars_eq_self (fun c hc => ?_)
  exact isSpaceChar_eq_false_of_digit (by
    have := List.all_eq_true.mp hall c hc
    simpa using this)

/-- A successfully parsed date string is not the sentinel. -/
theorem ne_PERM_of_parseYMD {cs : List Char} {f : Nat × Nat × Nat × Nat × Nat}
    (h : parseYMD cs = some f) : cs ≠ "PERM".toList := by
  intro heq
  have hn : parseYMD ("PERM".toList) = none := by decide
  rw [heq, hn] at h
  exact Option.noConfusion h

/-- A successfully parsed date string is nonempty. -/
theorem ne_nil_of_parseYMD {cs : List Char} {f : Nat × Nat × Nat × Nat × Nat}
    (h : parseYMD cs = some f) : cs ≠ [] := by
  intro heq
  have hn : parseYMD ([] : List Char) = none := by decide
  rw [heq, hn] at h
  exact Option.noConfusion h

/-- Resolution of a valid digit string: the resolved instant carries the
parsed calendar fields at the offset of the supplied default timezone. -/
theorem make_year_timestamp_of_parseYMD {cs : List Char}
    {f : Nat × Nat × Nat × Nat × Nat} (repr0 : List Char)
    (tzname : Option (List Char)) (h : parseYMD cs = some f) :
    make_year_timestamp cs repr0 tzname
      = some ⟨repr0, mkDtOf f (tzOffsetOf tzname)⟩ := by
  obtain ⟨y, mo, dd, hh, mi⟩ := f
  simp only [make_year_timestamp]
  rw [trimChars_eq_self_of_parseYMD h, if_neg (ne_nil_of_parseYMD h),
    if_neg (ne_PERM_of_parseYMD h), h]
  rfl

/-- Resolution of the empty field is `none`. -/
theorem make_year_timestamp_nil (repr0 : List Char) (tzname : Option (List Char)) :
    make_year_timestamp [] repr0 tzname = none := by
  rfl

/-- Claim C5: in the linked-time resolver, when exactly one member carries an
explicit trailing timezone abbreviation and the other parses as a plain
year-prefixed digit string, the member lacking the abbreviation resolves with
the other member's abbreviation as default, so both resolved timestamps carry
that abbreviation's zone offset; with no abbreviation on either side both
resolve at the UTC offset; and a blank member resolves to `none`, a blank
pair to `(none, none)`. -/
theorem claim_C5 (start0 end0 : List Char) :
    (∀ sc ec tz f1 f2,
      splitTz (trimChars start0) = (sc, some tz) →
      splitTz (trimChars end0) = (ec, none) →
      parseYMD sc = some f1 → parseYMD ec = some f2 →
      parse_linked_times start0 end0
        = (some ⟨trimChars start0, mkDtOf f1 (tzOffsetOf (some tz))⟩,
           some ⟨trimChars end0, mkDtOf f2 (tzOffsetOf (some tz))⟩))
    ∧ (∀ sc ec tz f1 f2,
      splitTz (trimChars start0) = (sc, none) →
      splitTz (trimChars end0) = (ec, some tz) →
      parseYMD sc = some f1 → parseYMD ec = some f2 →
      parse_linked_times start0 end0
        = (some ⟨trimChars start0, mkDtOf f1 (tzOffsetOf (some tz))⟩,
           some ⟨trimChars end0, mkDtOf f2 (tzOffsetOf (some tz))⟩))
    ∧ (∀ sc ec f1 f2,
      splitTz (trimChars start0) = (sc, none) →
      splitTz (trimChars end0) = (ec, none) →
      parseYMD sc = some f1 → parseYMD ec = some f2 →
      parse_linked_times start0 end0
        = (some ⟨trimChars start0, mkDtOf f1 0⟩,
           some ⟨trimChars end0, mkDtOf f2 0⟩))
    ∧ (trimChars start0 = [] → (parse_linked_times start0 end0).1 = none)
    ∧ (trimChars end0 = [] → (parse_linked_times start0 end0).2 = none)
    ∧ (trimChars start0 = [] → trimChars end0 = [] →
        parse_linked_times start0 end0 = (none, none)) := by
  refine ⟨?_, ?_, ?_, ?_, ?_, ?_⟩
  · intro sc ec tz f1 f2 hs he hp1 hp2
    simp only [parse_linked_times, hs, he]
    rw [make_year_timestamp_of_parseYMD _ _ hp1, make_year_timestamp_of_parseYMD _ _ hp2]
  · intro sc ec tz f1 f2 hs he hp1 hp2
    simp only [parse_linked_times, hs, he]
    rw [make_year_timestamp_of_parseYMD _ _ hp1, make_year_timestamp_of_parseYMD _ _ hp2]
  · intro sc ec f1 f2 hs he hp1 hp2
    simp only [parse_linked_times, hs, he]
    rw [make_year_timestamp_of_parseYMD _ _ hp1, make_year_timestamp_of_parseYMD _ _ hp2]
    rfl
  · intro hs
    have hsp : splitTz (trimChars start0) = ([], none) := by rw [hs]; rfl
    rcases hep : splitTz (trimChars end0) with ⟨ec, etz⟩
    simp only [parse_linked_times, hsp, hep]
    cases etz <;> simp [make_year_timestamp_nil]
  · intro he
    have hep : splitTz (trimChars end0) = ([], none) := by rw [he]; rfl
    rcases hsp : splitTz (trimChars start0) with ⟨sc, stz⟩
    simp only [parse_linked_times, hsp, hep]
    cases stz <;> simp [make_year_timestamp_nil]
  · intro hs he
    have hsp : splitTz (trimChars start0) = ([], none) := by rw [hs]; rfl
    have hep : splitTz (trimChars end0) = ([], none) := by rw [he]; rfl
    simp only [parse_linked_times, hsp, hep]
    simp [make_year_timestamp_nil]

/-- Witness for claim C5 at the linked-time test vectors: timezone
propagation from the end member to the start member, and the blank pair. -/
theorem claim_C5_witness :
    parse_linked_times ("2107221958".toList) ("2307221957EST".toList)
      = (some ⟨ "2107221958".toList, ⟨2021, 7, 22, 19, 58, -300⟩⟩,
         some ⟨ "2307221957EST".toList, ⟨2023, 7, 22, 19, 57, -300⟩⟩)
    ∧ parse_linked_times ("".toList) ("".toList) = (none, none) := by
  constructor
  · have h := (claim_C5 ("2107221958".toList) ("2307221957EST".toList)).2.1
      ("2107221958".toList) ("2307221957".toList) ("EST".toList)
      (2021, 7, 22, 19, 58) (2023, 7, 22, 19, 57)
      (by decide) (by decide) (by decide) (by decide)
    rw [h]
    decide
  · exact (claim_C5 ("".toList) ("".toList)).2.2.2.2.2 (by decide) (by decide)


/-- After the duplicate-stripping loop runs with fuel exceeding the body
length, the result no longer starts with the (nonempty) payload. -/
theorem stripDupGo_no_prefix :
    ∀ (fuel : Nat) (body qp : List Char), body.length < fuel → qp ≠ [] →
      qp.isPrefixOf (stripDupGo fuel body qp) = false := by
  intro fuel
  induction fuel with
  | zero => intro body qp h _; exact absurd h (Nat.not_lt_zero _)
  | succ n ih =>
    intro body qp h hq
    simp only [stripDupGo]
    split
    · rename_i hcond
      refine ih _ qp ?_ hq
      have hpre : qp <+: body := List.isPrefixOf_iff_prefix.mp hcond.2
      have h1 : 1 ≤ qp.length := by
        cases qp with
        | nil => exact absurd rfl hq
        | cons a t => simp
      have h2 : qp.length ≤ body.length := hpre.length_le
      have h3 : (lstripChars (body.drop qp.length)).length
          ≤ (body.drop qp.length).length := (List.dropWhile_sublist _).length_le
      have h4 : (body.drop qp.length).length = body.length - qp.length :=
        List.length_drop _ _
      omega
    · rename_i hcond
      rcases Bool.eq_false_or_eq_true (qp.isPrefixOf body) with hb | hb
      · exact absurd ⟨hq, hb⟩ hcond
      · exact hb

set_option maxRecDepth 400000 in
/-- Claim C7: the extracted body never starts with the (nonempty) Q-line
payload; a body whose leading content exactly duplicates the payload has
that duplicate prefix stripped, returning the substantive free text; and for
the LIMM copied-tag report the decoded body starts with "REF AIP". -/
theorem claim_C7 (etext qp rest : List Char) :
    (qp ≠ [] → qp.isPrefixOf (extractBody etext qp) = false)
    ∧ (qp ≠ [] → qp.isPrefixOf (lstripChars rest) = false →
        stripDupTag (qp ++ rest) qp = lstripChars rest)
    ∧ (parse copiedTagReport.toList).map (fun d => d.body.take 7)
        = some ("REF AIP".toList) := by
  refine ⟨?_, ?_, ?_⟩
  · intro hq
    exact stripDupGo_no_prefix _ _ qp (Nat.lt_succ_self _) hq
  · intro hq hr
    have hq1 : 1 ≤ qp.length := by
      cases qp with
      | nil => exact absurd rfl hq
      | cons a t => simp
    simp only [stripDupTag, stripDupGo]
    rw [if_pos ⟨hq, List.isPrefixOf_iff_prefix.mpr (List.prefix_append qp rest)⟩,
      List.drop_left]
    have hlen : (qp ++ rest).length = ((qp.length - 1) + rest.length) + 1 := by
      simp only [List.length_append]
      omega
    rw [hlen, stripDupGo, if_neg]
    rintro ⟨-, hp⟩
    rw [hr] at hp
    exact Bool.noConfusion hp
  · decide

/-- Witness for claim C7 at a concrete duplicated payload. -/
theorem claim_C7_witness :
    ("AB".toList).isPrefixOf (extractBody ("AB CD".toList) ("AB".toList)) = false
    ∧ stripDupTag ("AB".toList ++ " CD".toList) ("AB".toList)
      = lstripChars (" CD".toList) := by
  exact ⟨(claim_C7 ("AB CD".toList) ("AB".toList) (" CD".toList)).1 (by decide),
    (claim_C7 ("AB CD".toList) ("AB".toList) (" CD".toList)).2.1 (by decide)
      (by decide)⟩

/-- ASCII digit character for a digit value. -/
def dchar (n : Nat) : Char := Char.ofNat (48 + n)

/-- Digit characters pass the digit test. -/
theorem dchar_isDigit {n : Nat} (h : n < 10) : isDigitChar (dchar n) = true := by
  interval_cases n <;> decide

/-- Digit characters decode to their value. -/
theorem digitToNat_dchar {n : Nat} (h : n < 10) : digitToNat (dchar n) = n := by
  interval_cases n <;> decide

/-- Folding the decimal accumulator over encoded digits equals folding over
the digit values. -/
theorem foldl_digits (rs : List Nat) : ∀ (init : Nat), (∀ r ∈ rs, r < 10) →
    (rs.map dchar).foldl (fun a c => 10 * a + digitToNat c) init
      = rs.foldl (fun a r => 10 * a + r) init := by
  induction rs with
  | nil => intro init _; rfl
  | cons r rs ih =>
    intro init h
    simp only [List.map_cons, List.foldl_cons]
    rw [digitToNat_dchar (h r (List.mem_cons_self r rs))]
    exact ih _ (fun x hx => h x (List.mem_cons_of_mem r hx))

/-- Decimal value of a digit-value list. -/
def decimalOfDigits (rs : List Nat) : Nat := rs.foldl (fun a r => 10 * a + r) 0

/-- Folding the character decoder over encoded digits gives the decimal
value. -/
theorem natFromDigits_map_dchar {rs : List Nat} (h : ∀ r ∈ rs, r < 10) :
    natFromDigits (rs.map dchar) = decimalOfDigits rs :=
  foldl_digits rs 0 h

/-- Claim C1 (amended): on a fragment `DDMM[N|S]DDDMM[E|W][digits]` the
rear-coordinate extractor returns a coordinate whose latitude value is
degrees plus minutes/100 (the digits read as the decimal `DD.MM`), negated
for `S`, whose longitude value is degrees plus minutes/100 (`DDD.MM`),
negated for `W`, with the trailing digits becoming the radius; and any
fragment it accepts satisfies the character-class shape, so a fragment
violating it yields `none`. -/
theorem claim_C1 (d1 d2 d3 d4 e1 e2 e3 e4 e5 : Nat) (h1 h2 : Char)
    (rad : List Nat)
    (hd1 : d1 < 10) (hd2 : d2 < 10) (hd3 : d3 < 10) (hd4 : d4 < 10)
    (he1 : e1 < 10) (he2 : e2 < 10) (he3 : e3 < 10) (he4 : e4 < 10)
    (he5 : e5 < 10)
    (hh1 : h1 = 'N' ∨ h1 = 'S') (hh2 : h2 = 'E' ∨ h2 = 'W')
    (hrad : ∀ r ∈ rad, r < 10) :
    (∃ co radius,
      _rear_coord ([dchar d1, dchar d2, dchar d3, dchar d4, h1, dchar e1,
          dchar e2, dchar e3, dchar e4, dchar e5, h2] ++ rad.map dchar)
        = some (co, radius)
      ∧ co.latQ = (if h1 = 'S' then -1 else 1)
          * ((10 * d1 + d2 : ℚ) + (10 * d3 + d4) / 100)
      ∧ co.lonQ = (if h2 = 'W' then -1 else 1)
          * ((100 * e1 + 10 * e2 + e3 : ℚ) + (10 * e4 + e5) / 100)
      ∧ co.repr = [dchar d1, dchar d2, dchar d3, dchar d4, h1, dchar e1,
          dchar e2, dchar e3, dchar e4, dchar e5, h2]
      ∧ (rad = [] → radius = none)
      ∧ (rad ≠ [] → radius = some ⟨rad.map dchar, decimalOfDigits rad,
            spokenFromDigits (rad.map dchar)⟩))
    ∧ (∀ cs r, _rear_coord cs = some r → validShape cs = true) := by
  constructor
  · have hall : (rad.map dchar).all isDigitChar = true := by
      refine List.all_eq_true.mpr ?_
      intro c hc
      rcases List.mem_map.mp hc with ⟨r, hr, rfl⟩
      simpa using dchar_isDigit (hrad r hr)
    have hvs : validShape (dchar d1 :: dchar d2 :: dchar d3 :: dchar d4 ::
        h1 :: dchar e1 :: dchar e2 :: dchar e3 :: dchar e4 :: dchar e5 ::
        h2 :: rad.map dchar) = true := by
      simp only [validShape,
        dchar_isDigit, hd1, hd2, hd3, hd4, he1, he2, he3, he4, he5, hall,
        if_pos hh1, if_pos hh2, Bool.and_self, Bool.and_true, Bool.true_and]
    have hlat : natFromDigits [dchar d1, dchar d2, dchar d3, dchar d4]
        = 1000 * d1 + 100 * d2 + 10 * d3 + d4 := by
      simp only [natFromDigits, List.foldl_cons, List.foldl_nil,
        digitToNat_dchar, hd1, hd2, hd3, hd4]
      ring
    have hlon : natFromDigits [dchar e1, dchar e2, dchar e3, dchar e4, dchar e5]
        = 10000 * e1 + 1000 * e2 + 100 * e3 + 10 * e4 + e5 := by
      simp only [natFromDigits, List.foldl_cons, List.foldl_nil,
        digitToNat_dchar, he1, he2, he3, he4, he5]
      ring
    refine ⟨⟨if h1 = 'S'
          then -(Int.ofNat (natFromDigits [dchar d1, dchar d2, dchar d3, dchar d4]))
          else Int.ofNat (natFromDigits [dchar d1, dchar d2, dchar d3, dchar d4]),
        if h2 = 'W'
          then -(Int.ofNat (natFromDigits [dchar e1, dchar e2, dchar e3, dchar e4, dchar e5]))
          else Int.ofNat (natFromDigits [dchar e1, dchar e2, dchar e3, dchar e4, dchar e5]),
        [dchar d1, dchar d2, dchar d3, dchar d4, h1, dchar e1, dchar e2,
         dchar e3, dchar e4, dchar e5, h2]⟩,
      make_number (rad.map dchar), ?_, ?_, ?_, rfl, ?_, ?_⟩
    · simp only [_rear_coord, List.cons_append, List.nil_append, hvs, if_true]
    · rcases hh1 with h1e | h1e <;> subst h1e
      · simp only [Coord.latQ, hlat]
        rw [if_neg (by decide), if_neg (by decide)]
        push_cast [Int.ofNat_eq_natCast]
        ring
      · simp only [Coord.latQ, hlat]
        simp only [if_true]
        push_cast [Int.ofNat_eq_natCast]
        ring
    · rcases hh2 with h2e | h2e <;> subst h2e
      · simp only [Coord.lonQ, hlon]
        rw [if_neg (by decide), if_neg (by decide)]
        push_cast [Int.ofNat_eq_natCast]
        ring
      · simp only [Coord.lonQ, hlon]
        simp only [if_true]
        push_cast [Int.ofNat_eq_natCast]
        ring
    · intro hnil
      subst hnil
      rfl
    · intro hne
      have hmne : rad.map dchar ≠ [] := by
        simpa using hne
      simp only [make_number, if_pos (And.intro hmne hall),
        natFromDigits_map_dchar hrad]
  · intro cs r h
    by_cases hv : validShape cs = true
    · exact hv
    · simp only [_rear_coord] at h
      rw [if_neg hv] at h
      exact Option.noConfusion h

/-- Counterexample to claim C1 as stated: at the fragment `5126N00036W` of
the coordinate test, the extractor yields latitude value 51.26 (= 2563/50),
not degrees + minutes/60 = 51 + 26/60. -/
theorem claim_C1_counterexample :
    (_rear_coord ("5126N00036W".toList)).map (fun p => p.1.latQ)
      = some ((2563 : ℚ) / 50)
    ∧ ((2563 : ℚ) / 50) ≠ 51 + 26 / 60 := by
  constructor
  · have h : _rear_coord ("5126N00036W".toList)
        = some (⟨5126, -36, "5126N00036W".toList⟩, none) := by decide
    rw [h]
    simp only [Option.map_some, Coord.latQ]
    norm_num
  · norm_num

/-- Witness for claim C1 at the digits of the fragment `5126N00036W`. -/
theorem claim_C1_witness :
    ∃ co radius,
      _rear_coord ([dchar 5, dchar 1, dchar 2, dchar 6, 'N', dchar 0, dchar 0,
          dchar 0, dchar 3, dchar 6, 'W'] ++ List.map dchar [])
        = some (co, radius)
      ∧ co.latQ = (if 'N' = 'S' then -1 else 1)
          * ((10 * 5 + 1 : ℚ) + (10 * 2 + 6) / 100)
      ∧ co.lonQ = (if 'W' = 'W' then -1 else 1)
          * ((100 * 0 + 10 * 0 + 0 : ℚ) + (10 * 3 + 6) / 100)
      ∧ co.repr = [dchar 5, dchar 1, dchar 2, dchar 6, 'N', dchar 0, dchar 0,
          dchar 0, dchar 3, dchar 6, 'W']
      ∧ (([] : List Nat) = [] → radius = none)
      ∧ (([] : List Nat) ≠ [] → radius = some ⟨List.map dchar [],
            decimalOfDigits [], spokenFromDigits (List.map dchar [])⟩) := by
  exact (claim_C1 5 1 2 6 0 0 0 3 6 'N' 'W' []
    (by decide) (by decide) (by decide) (by decide) (by decide) (by decide)
    (by decide) (by decide) (by decide) (Or.inl rfl) (Or.inr rfl)
    (by simp)).1

end AvwxNotam
